import Mathlib

/-!
Verification development for the demo e-commerce HTTP service
(`app/main.py`).  The service exposes a static product catalog, a mock
order endpoint, an inventory endpoint, and a process-wide bug toggle
that forces the business endpoints to fail with HTTP 500.

The embedding is shallow:
* JSON response bodies are modelled by the inductive `Json`
  (decimal prices are carried as an integer number of cents);
* an `HTTPException` raised by a handler is modelled by `Resp.error`
  carrying the status code and the detail string;
* the module-level mutable globals read by the handlers
  (`BUG_ENABLED`, and the `PRODUCTS` list, which Python would in
  principle let any code rebind or mutate) form `ServerState`;
* `datetime.utcnow().isoformat()` is an externally supplied `now`
  string, and `random.randint(10000, 99999)` is modelled by mapping an
  externally supplied natural number into the same inclusive range;
* each route of the FastAPI app is a constructor of `Endpoint`, and
  `handle` is the service step function: one request in a given state
  produces a response and a successor state.
-/

/-- JSON values, as far as the service's response bodies need them.
`dec cents` stands for a decimal number with two fraction digits,
held as a count of cents (e.g. `dec 99999` is 999.99). -/
inductive Json where
  | str (s : String) : Json
  | nat (n : Nat) : Json
  | bool (b : Bool) : Json
  | dec (cents : Nat) : Json
  | arr (elems : List Json) : Json
  | obj (fields : List (String × Json)) : Json

/-- A product record: `\x7bid, name, price, stock\x7d`.  The price is in
cents. -/
structure Product where
  id : Nat
  name : String
  price : Nat
  stock : Nat
deriving DecidableEq, Repr

/-- The simulated product database (`PRODUCTS` in `app/main.py`). -/
def PRODUCTS : List Product :=
  [ ⟨1, "Laptop", 99999, 50⟩,
    ⟨2, "Smartphone", 69999, 100⟩,
    ⟨3, "Headphones", 19999, 200⟩,
    ⟨4, "Tablet", 44999, 75⟩,
    ⟨5, "Smartwatch", 29999, 150⟩ ]

/-- An HTTP response as a handler produces it: either a JSON body
returned normally (status 200), or a raised `HTTPException` with a
status code and a detail string. -/
inductive Resp where
  | ok (body : Json) : Resp
  | error (status : Nat) (detail : String) : Resp

/-- The status code of a response (a plain return is a 200). -/
def Resp.status : Resp → Nat
  | .ok _ => 200
  | .error s _ => s

/-- The detail string of a raised `HTTPException`, `none` for a normal
return. -/
def Resp.detail : Resp → Option String
  | .ok _ => none
  | .error _ d => some d

/-- The module-level state the handlers read and write: the bug flag
`BUG_ENABLED`, the `APPINSIGHTS_ENABLED` flag (fixed at startup), and
the `PRODUCTS` list. -/
structure ServerState where
  bugEnabled : Bool
  appInsights : Bool
  products : List Product
deriving Repr

/-- ASCII lowercasing of a character, as Python's `str.lower` acts on
the ASCII strings relevant here. -/
def lowerChar (c : Char) : Char :=
  if 65 ≤ c.toNat ∧ c.toNat ≤ 90 then Char.ofNat (c.toNat + 32) else c

/-- ASCII lowercasing of a string (`str.lower`). -/
def lowerString (s : String) : String :=
  String.mk (s.data.map lowerChar)

/-- Initial value of the bug flag:
`os.getenv("ENABLE_BUG", "false").lower() == "true"`.
The argument is the value of the `ENABLE_BUG` environment variable,
`none` when unset. -/
def initBugEnabled (enableBugEnv : Option String) : Bool :=
  lowerString (enableBugEnv.getD "false") == "true"

/-- The module state right after startup. -/
def initState (enableBugEnv : Option String) (appInsights : Bool) : ServerState :=
  ⟨initBugEnabled enableBugEnv, appInsights, PRODUCTS⟩

/-- The character for a decimal digit. -/
def digitChar (d : Nat) : Char := Char.ofNat (48 + d)

/-- Decimal rendering of a natural number, most significant digit
first; the first argument is recursion fuel (any value above the
number itself is enough). -/
def natStrAux : Nat → Nat → List Char
  | 0, _ => []
  | fuel + 1, n =>
    if n < 10 then [digitChar n]
    else natStrAux fuel (n / 10) ++ [digitChar (n % 10)]

/-- Decimal rendering of a natural number, as Python's `str`
interpolates an `int` into an f-string. -/
def natStr (n : Nat) : String := String.mk (natStrAux (n + 1) n)

/-- The JSON rendering of a product record. -/
def productJson (p : Product) : Json :=
  .obj [("id", .nat p.id), ("name", .str p.name),
        ("price", .dec p.price), ("stock", .nat p.stock)]

/-- `GET /` (`root` in the source). -/
def root_endpoint (s : ServerState) (now : String) : Resp :=
  .ok (.obj [("service", .str "Demo E-Commerce API"),
             ("status", .str "running"),
             ("version", .str "1.0.0"),
             ("timestamp", .str now),
             ("bug_mode", .bool s.bugEnabled),
             ("appinsights_enabled", .bool s.appInsights)])

/-- `GET /health` (`health_check`). -/
def health_check (s : ServerState) (now : String) : Resp :=
  .ok (.obj [("status", .str "healthy"),
             ("timestamp", .str now),
             ("appinsights",
              .str (if s.appInsights then "connected" else "not configured"))])

/-- `GET /api/products` (`get_products`).  The source sets
`db_connection_status = None` (its own comment: "Bug: This should be
initialized to True") and raises a 500 whenever that value is falsy,
before the bug-toggle check. -/
def get_products (s : ServerState) : Resp :=
  let db_connection_status : Option Bool := none
  if db_connection_status.getD false = false then
    .error 500 "Internal Server Error: Database connection validation failed"
  else if s.bugEnabled then
    .error 500 "Internal Server Error: Database connection failed"
  else
    .ok (.obj [("success", .bool true),
               ("count", .nat s.products.length),
               ("products", .arr (s.products.map productJson))])

/-- `GET /api/products/\x7bproduct_id\x7d` (`get_product`). -/
def get_product (s : ServerState) (product_id : Nat) : Resp :=
  if s.bugEnabled then
    .error 500
      ("Internal Server Error: Failed to fetch product " ++ natStr product_id)
  else
    match s.products.find? (fun p => p.id == product_id) with
    | none => .error 404 "Product not found"
    | some p => .ok (.obj [("success", .bool true), ("product", productJson p)])

/-- The order number: `random.randint(10000, 99999)` returns an
integer from the inclusive range, here reached by reducing an
arbitrary external random value into it. -/
def orderNum (rnd : Nat) : Nat := 10000 + rnd % 90000

/-- `POST /api/orders` (`create_order`). -/
def create_order (s : ServerState) (rnd : Nat) (now : String) : Resp :=
  if s.bugEnabled then
    .error 500 "Internal Server Error: Order processing failed"
  else
    .ok (.obj [("success", .bool true),
               ("order_id", .str ("ORD-" ++ natStr (orderNum rnd))),
               ("status", .str "created"),
               ("timestamp", .str now)])

/-- `GET /api/inventory` (`get_inventory`). -/
def get_inventory (s : ServerState) : Resp :=
  if s.bugEnabled then
    .error 500 "Internal Server Error: Inventory service unavailable"
  else
    .ok (.obj [("success", .bool true),
               ("total_items", .nat (s.products.map Product.stock).sum),
               ("low_stock_items",
                .arr ((s.products.filter (fun p => p.stock < 100)).map productJson))])

/-- `POST /demo/enable-bug` (`enable_bug`): sets `BUG_ENABLED := True`. -/
def enable_bug (s : ServerState) : Resp × ServerState :=
  (.ok (.obj [("message", .str "Bug mode enabled"), ("bug_enabled", .bool true)]),
   ⟨true, s.appInsights, s.products⟩)

/-- `POST /demo/disable-bug` (`disable_bug`): sets `BUG_ENABLED := False`. -/
def disable_bug (s : ServerState) : Resp × ServerState :=
  (.ok (.obj [("message", .str "Bug mode disabled"), ("bug_enabled", .bool false)]),
   ⟨false, s.appInsights, s.products⟩)

/-- `GET /demo/status` (`demo_status`). -/
def demo_status (s : ServerState) : Resp :=
  .ok (.obj [("bug_enabled", .bool s.bugEnabled),
             ("appinsights_enabled", .bool s.appInsights),
             ("message",
              .str (if s.bugEnabled then "API will return 500 errors"
                    else "API is operating normally"))])

/-- The routes of the FastAPI app.  `apiProduct` carries the path
parameter, `apiOrders` the external random value feeding
`random.randint`. -/
inductive Endpoint where
  | root : Endpoint
  | health : Endpoint
  | apiProducts : Endpoint
  | apiProduct (product_id : Nat) : Endpoint
  | apiOrders (rnd : Nat) : Endpoint
  | apiInventory : Endpoint
  | enableBug : Endpoint
  | disableBug : Endpoint
  | demoStatus : Endpoint
deriving DecidableEq, Repr

/-- The business endpoints: the four routes the spec designates as
gated by the bug toggle. -/
def isBusiness : Endpoint → Bool
  | .apiProducts => true
  | .apiProduct _ => true
  | .apiOrders _ => true
  | .apiInventory => true
  | _ => false

/-- The service step function: dispatch one request to its handler,
returning the response and the successor module state. -/
def handle (ep : Endpoint) (s : ServerState) (now : String) : Resp × ServerState :=
  match ep with
  | .root => (root_endpoint s now, s)
  | .health => (health_check s now, s)
  | .apiProducts => (get_products s, s)
  | .apiProduct pid => (get_product s pid, s)
  | .apiOrders rnd => (create_order s rnd now, s)
  | .apiInventory => (get_inventory s, s)
  | .enableBug => enable_bug s
  | .disableBug => disable_bug s
  | .demoStatus => (demo_status s, s)

/-- `http_exception_handler`: renders a raised `HTTPException` as a
JSON error response with the same status code. -/
def http_exception_handler (status : Nat) (detail path now : String) : Nat × Json :=
  (status, .obj [("error", .str detail), ("status_code", .nat status),
                 ("path", .str path), ("timestamp", .str now)])

/-- `general_exception_handler`: the catch-all for unexpected errors,
always a generic 500. -/
def general_exception_handler (path now : String) : Nat × Json :=
  (500, .obj [("error", .str "Internal Server Error"), ("status_code", .nat 500),
              ("path", .str path), ("timestamp", .str now)])

/-- Log severities the request-tracking middleware distinguishes. -/
inductive LogLevel where
  | info : LogLevel
  | warning : LogLevel
  | error : LogLevel
deriving DecidableEq, Repr

/-- Outcome classification of `track_requests`: status 500 and above
logs at error, 400 and above at warning, anything else at info. -/
def classifyStatus (status : Nat) : LogLevel :=
  if 500 ≤ status then .error
  else if 400 ≤ status then .warning
  else .info

/-- The `track_requests` middleware, timing aside: it classifies the
downstream response for logging and passes the response through. -/
def track_requests (resp : Resp) : LogLevel × Resp :=
  (classifyStatus resp.status, resp)

/-! ## Helper lemmas about decimal rendering -/

/-- `natStrAux` does not depend on the fuel, as long as the fuel
exceeds the number. -/
theorem natStrAux_fuel_irrel : ∀ f g n, n < f → n < g → natStrAux f n = natStrAux g n := by
  intro f
  induction f with
  | zero => intro g n hf _; exact absurd hf (Nat.not_lt_zero n)
  | succ f ih =>
    intro g n hf hg
    cases g with
    | zero => exact absurd hg (Nat.not_lt_zero n)
    | succ g =>
      simp only [natStrAux]
      by_cases h10 : n < 10
      · simp [h10]
      · simp only [if_neg h10]
        have hdiv : n / 10 < n := Nat.div_lt_self (by omega) (by omega)
        rw [ih g (n / 10) (by omega) (by omega)]

/-- A number between `10 ^ k` and `10 ^ (k + 1)` renders with exactly
`k + 1` digits. -/
theorem natStrAux_length_pow :
    ∀ k n, 10 ^ k ≤ n → n < 10 ^ (k + 1) → (natStrAux (n + 1) n).length = k + 1 := by
  intro k
  induction k with
  | zero =>
    intro n h1 h2
    rw [pow_one] at h2
    simp [natStrAux, if_pos h2]
  | succ k ih =>
    intro n h1 h2
    have hten : (10 : Nat) ≤ 10 ^ (k + 1) := by
      calc (10 : Nat) = 10 ^ 1 := (pow_one 10).symm
      _ ≤ 10 ^ (k + 1) := Nat.pow_le_pow_right (by omega) (by omega)
    have h10 : ¬ n < 10 := by omega
    simp only [natStrAux, if_neg h10, List.length_append]
    have hdiv : n / 10 < n := Nat.div_lt_self (by omega) (by omega)
    rw [natStrAux_fuel_irrel n (n / 10 + 1) (n / 10) (by omega) (by omega)]
    have hlow : 10 ^ k ≤ n / 10 := by
      rw [Nat.le_div_iff_mul_le (by omega : 0 < 10)]
      calc 10 ^ k * 10 = 10 ^ (k + 1) := (pow_succ 10 k).symm
      _ ≤ n := h1
    have hhigh : n / 10 < 10 ^ (k + 1) := by
      rw [Nat.div_lt_iff_lt_mul (by omega : 0 < 10)]
      calc n < 10 ^ (k + 1 + 1) := h2
      _ = 10 ^ (k + 1) * 10 := pow_succ 10 (k + 1)
    rw [ih (n / 10) hlow hhigh]
    simp

/-- The character of a decimal digit is an ASCII digit. -/
theorem digitChar_isDigit : ∀ d, d < 10 → (digitChar d).isDigit = true := by decide

/-- Every character `natStrAux` emits is an ASCII digit. -/
theorem natStrAux_all_digits : ∀ f n c, c ∈ natStrAux f n → c.isDigit = true := by
  intro f
  induction f with
  | zero => intro n c hc; simp [natStrAux] at hc
  | succ f ih =>
    intro n c hc
    simp only [natStrAux] at hc
    by_cases h10 : n < 10
    · rw [if_pos h10] at hc
      simp only [List.mem_singleton] at hc
      subst hc
      exact digitChar_isDigit n h10
    · rw [if_neg h10] at hc
      rcases List.mem_append.mp hc with h | h
      · exact ih _ _ h
      · simp only [List.mem_singleton] at h
        subst h
        exact digitChar_isDigit _ (Nat.mod_lt _ (by omega))

/-- A number in `[10000, 99999]` renders as exactly 5 characters. -/
theorem natStr_length_five (n : Nat) (h1 : 10000 ≤ n) (h2 : n ≤ 99999) :
    (natStr n).length = 5 := by
  have e4 : (10 : Nat) ^ 4 = 10000 := by norm_num
  have e5 : (10 : Nat) ^ 5 = 100000 := by norm_num
  have := natStrAux_length_pow 4 n (by omega) (by omega)
  simpa [natStr, String.length] using this


/-! ## Claim theorems -/

/-- C1.  The spec says GET /api/products with the toggle off returns a
success with the 5 catalog records.  The code disagrees: the planted
`db_connection_status = None` check (whose own comment says it should
have been `True`) makes the handler raise a 500 before the toggle is
even consulted, so with the toggle off the endpoint still fails. -/
theorem get_products_toggle_off_is_500 :
    ∀ (ai : Bool) (now : String),
      (handle Endpoint.apiProducts ⟨false, ai, PRODUCTS⟩ now).1
        = Resp.error 500 "Internal Server Error: Database connection validation failed" :=
  fun _ _ => rfl

/-- C2.  Enabling the bug toggle and then disabling it does not
restore GET /api/products: the planted database-validation bug keeps
the endpoint at status 500 even though the toggle is back to off, so
"disable → normal response resumes" fails on the code. -/
theorem products_not_restored_after_disable :
    ((handle Endpoint.disableBug
        (handle Endpoint.enableBug ⟨false, false, PRODUCTS⟩ "T").2 "T").2.bugEnabled = false)
    ∧ (handle Endpoint.apiProducts
        (handle Endpoint.disableBug
          (handle Endpoint.enableBug ⟨false, false, PRODUCTS⟩ "T").2 "T").2 "T").1.status
        = 500 :=
  ⟨rfl, rfl⟩

/-- C3 counterexample.  With the bug toggle on, GET /api/products/999
returns the injected 500, not a 404: the toggle check short-circuits
before the catalog lookup, so "404 regardless of toggle state" is
false. -/
theorem get_product_999_toggle_on_not_404 :
    (handle (Endpoint.apiProduct 999) ⟨true, false, PRODUCTS⟩ "T").1
      = Resp.error 500 "Internal Server Error: Failed to fetch product 999"
    ∧ (handle (Endpoint.apiProduct 999) ⟨true, false, PRODUCTS⟩ "T").1.status ≠ 404 :=
  ⟨rfl, by decide⟩

/-- C3 amended.  While the bug toggle is off, GET /api/products/\x7bid\x7d
with an id absent from the catalog returns a 404 not-found error. -/
theorem get_product_unknown_toggle_off_404 :
    ∀ (pid : Nat) (ai : Bool) (now : String),
      (∀ p ∈ PRODUCTS, p.id ≠ pid) →
      (handle (Endpoint.apiProduct pid) ⟨false, ai, PRODUCTS⟩ now).1
        = Resp.error 404 "Product not found" := by
  intro pid ai now h
  have hfind : PRODUCTS.find? (fun p => p.id == pid) = none := by
    rw [List.find?_eq_none]
    intro p hp
    simpa using h p hp
  simp [handle, get_product, hfind]

/-- C3 amended, witness at id 999. -/
theorem get_product_unknown_toggle_off_404_witness :
    (handle (Endpoint.apiProduct 999) ⟨false, false, PRODUCTS⟩ "T").1
      = Resp.error 404 "Product not found" :=
  get_product_unknown_toggle_off_404 999 false "T" (by decide)

/-- C4.  The bug toggle starts as the case-insensitive comparison of
the ENABLE_BUG environment variable with "true" (false when unset),
and among all operations only POST /demo/enable-bug sets it to true
and only POST /demo/disable-bug sets it to false; every other
operation leaves it unchanged. -/
theorem bug_toggle_init_and_mutation :
    (∀ v : String, initBugEnabled (some v) = (lowerString v == "true"))
    ∧ initBugEnabled none = false
    ∧ (∀ (ep : Endpoint) (s : ServerState) (now : String),
        (handle ep s now).2.bugEnabled =
          match ep with
          | Endpoint.enableBug => true
          | Endpoint.disableBug => false
          | _ => s.bugEnabled) :=
  ⟨fun _ => rfl, by decide, fun ep s now => by cases ep <;> rfl⟩

/-- C5.  The spec allows only two error kinds (404 unknown product,
toggle-triggered 500).  The code produces a third: with the toggle
off, GET /api/products fails with a 500 whose detail is the planted
database-validation message, an error that is neither a 404 nor
triggered by the toggle. -/
theorem third_error_kind_exists :
    (handle Endpoint.apiProducts ⟨false, false, PRODUCTS⟩ "T").1.status = 500
    ∧ (handle Endpoint.apiProducts ⟨false, false, PRODUCTS⟩ "T").1.detail
        = some "Internal Server Error: Database connection validation failed"
    ∧ (⟨false, false, PRODUCTS⟩ : ServerState).bugEnabled = false
    ∧ (handle Endpoint.apiProducts ⟨false, false, PRODUCTS⟩ "T").1.detail
        ≠ some "Product not found" :=
  ⟨rfl, rfl, rfl, by decide⟩

/-- C6.  With the toggle off, POST /api/orders succeeds and its
`order_id` is "ORD-" followed by exactly 5 decimal digits: the
generated number lies in [10000, 99999], so its rendering is 5
characters long, all ASCII digits. -/
theorem create_order_id_pattern :
    ∀ (rnd : Nat) (ai : Bool) (prods : List Product) (now : String),
      handle (Endpoint.apiOrders rnd) ⟨false, ai, prods⟩ now
        = (Resp.ok (.obj [("success", .bool true),
                          ("order_id", .str ("ORD-" ++ natStr (orderNum rnd))),
                          ("status", .str "created"),
                          ("timestamp", .str now)]),
           ⟨false, ai, prods⟩)
      ∧ 10000 ≤ orderNum rnd ∧ orderNum rnd ≤ 99999
      ∧ (natStr (orderNum rnd)).length = 5
      ∧ ∀ c ∈ (natStr (orderNum rnd)).data, c.isDigit = true := by
  intro rnd ai prods now
  have hlo : 10000 ≤ orderNum rnd := Nat.le_add_right 10000 (rnd % 90000)
  have hhi : orderNum rnd ≤ 99999 := by
    have := Nat.mod_lt rnd (show 0 < 90000 by omega)
    unfold orderNum
    omega
  refine ⟨rfl, hlo, hhi, natStr_length_five _ hlo hhi, ?_⟩
  intro c hc
  exact natStrAux_all_digits _ _ c hc

/-- C7.  The catalog is immutable: the initial state carries the fixed
5-record list, and no endpoint, in any state, changes the product
list. -/
theorem catalog_immutable :
    (∀ (env : Option String) (ai : Bool), (initState env ai).products = PRODUCTS)
    ∧ PRODUCTS.length = 5
    ∧ (∀ (ep : Endpoint) (s : ServerState) (now : String),
        (handle ep s now).2.products = s.products) :=
  ⟨fun _ _ => rfl, rfl, fun ep s now => by cases ep <;> rfl⟩

/-- C8.  The request-tracking middleware classifies the outcome purely
by status-code range (500 and above as error, 400 and above as
warning, otherwise informational) and returns the downstream response
unchanged. -/
theorem track_requests_passthrough_and_classification :
    ∀ r : Resp,
      (track_requests r).2 = r
      ∧ ((track_requests r).1 = LogLevel.error ↔ 500 ≤ r.status)
      ∧ ((track_requests r).1 = LogLevel.warning ↔ 400 ≤ r.status ∧ r.status < 500)
      ∧ ((track_requests r).1 = LogLevel.info ↔ r.status < 400) := by
  intro r
  refine ⟨rfl, ?_, ?_, ?_⟩ <;>
    · simp only [track_requests, classifyStatus]
      split_ifs with h1 h2 <;> simp <;> omega

/-- C9.  With the toggle off, GET /api/inventory reports
`total_items` as the sum of the catalog's stock fields, 575, and
`low_stock_items` as exactly the records with stock strictly below
100: the products with ids 1 and 4. -/
theorem inventory_totals :
    ∀ (ai : Bool) (now : String),
      (handle Endpoint.apiInventory ⟨false, ai, PRODUCTS⟩ now).1
        = Resp.ok (.obj [("success", .bool true),
                         ("total_items", .nat 575),
                         ("low_stock_items",
                          .arr [productJson ⟨1, "Laptop", 99999, 50⟩,
                                productJson ⟨4, "Tablet", 44999, 75⟩])])
      ∧ (PRODUCTS.map Product.stock).sum = 575
      ∧ PRODUCTS.filter (fun p => p.stock < 100)
          = [⟨1, "Laptop", 99999, 50⟩, ⟨4, "Tablet", 44999, 75⟩] :=
  fun _ _ => ⟨rfl, rfl, rfl⟩

/-- C10.  The home, health and demo-control endpoints are never gated
by the bug toggle: in every state, GET /health reports "healthy",
GET / reports "running", GET /demo/status reports the current toggle
value, enabling and disabling succeed, and all five respond with
status 200, never the injected 500. -/
theorem control_endpoints_never_gated :
    ∀ (b ai : Bool) (prods : List Product) (now : String),
      (handle Endpoint.health ⟨b, ai, prods⟩ now).1
        = Resp.ok (.obj [("status", .str "healthy"),
                         ("timestamp", .str now),
                         ("appinsights",
                          .str (if ai then "connected" else "not configured"))])
      ∧ (handle Endpoint.root ⟨b, ai, prods⟩ now).1
          = Resp.ok (.obj [("service", .str "Demo E-Commerce API"),
                           ("status", .str "running"),
                           ("version", .str "1.0.0"),
                           ("timestamp", .str now),
                           ("bug_mode", .bool b),
                           ("appinsights_enabled", .bool ai)])
      ∧ (handle Endpoint.demoStatus ⟨b, ai, prods⟩ now).1
          = Resp.ok (.obj [("bug_enabled", .bool b),
                           ("appinsights_enabled", .bool ai),
                           ("message",
                            .str (if b then "API will return 500 errors"
                                  else "API is operating normally"))])
      ∧ (handle Endpoint.enableBug ⟨b, ai, prods⟩ now).1
          = Resp.ok (.obj [("message", .str "Bug mode enabled"),
                           ("bug_enabled", .bool true)])
      ∧ (handle Endpoint.disableBug ⟨b, ai, prods⟩ now).1
          = Resp.ok (.obj [("message", .str "Bug mode disabled"),
                           ("bug_enabled", .bool false)])
      ∧ (handle Endpoint.root ⟨b, ai, prods⟩ now).1.status = 200
      ∧ (handle Endpoint.health ⟨b, ai, prods⟩ now).1.status = 200
      ∧ (handle Endpoint.demoStatus ⟨b, ai, prods⟩ now).1.status = 200
      ∧ (handle Endpoint.enableBug ⟨b, ai, prods⟩ now).1.status = 200
      ∧ (handle Endpoint.disableBug ⟨b, ai, prods⟩ now).1.status = 200 :=
  fun _ _ _ _ => ⟨rfl, rfl, rfl, rfl, rfl, rfl, rfl, rfl, rfl, rfl⟩
